import Mathlib

/-!
WinWrangler: layout computation engine

A shallow embedding of the geometric core of WinWrangler
(`src/ww-utils.c`, `src/ww-layout-expand.c`) together with theorems about it.

Modelling conventions

* A C `int` is a mathematical `Int`; no claim below depends on wrap-around.
* A `WnckWindow` is a snapshot of what the libwnck getters return for one
  window handle at the time a layout is applied (`xid` is the handle).
* A `GList*` of windows is a `List WnckWindow`; `NULL` pointers to a workspace
  are `none`.
* A `for (next = l; next; next = next->next)` loop is a `List.foldl` whose
  step function is the loop body.
* `ww_layout_expand` returns the rectangle it passes to
  `wnck_window_set_geometry` on the active window, its only effect.
-/

namespace WinWrangler

/-! ## glib / libwnck interface -/

/-- The glib macro `MAX(a, b)`, which is `(((a) > (b)) ? (a) : (b))`. -/
def MAX (a b : Int) : Int := if a > b then a else b

/-- The glib macro `MIN(a, b)`, which is `(((a) < (b)) ? (a) : (b))`. -/
def MIN (a b : Int) : Int := if a < b then a else b

/-- The libwnck enumeration `WnckWindowType`. -/
inductive WnckWindowType where
  | WNCK_WINDOW_NORMAL
  | WNCK_WINDOW_DESKTOP
  | WNCK_WINDOW_DOCK
  | WNCK_WINDOW_DIALOG
  | WNCK_WINDOW_TOOLBAR
  | WNCK_WINDOW_MENU
  | WNCK_WINDOW_UTILITY
  | WNCK_WINDOW_SPLASHSCREEN
deriving DecidableEq, Repr

/-- A `WnckWorkspace*` that is not `NULL`, compared by identity. -/
abbrev WnckWorkspace := Nat

/-- The four integers written by `wnck_window_get_geometry` and read by
`wnck_window_set_geometry`. -/
structure Geometry where
  x : Int
  y : Int
  width : Int
  height : Int
deriving DecidableEq, Repr

/-- A snapshot of one window as seen through libwnck. -/
structure WnckWindow where
  xid : Nat
  geometry : Geometry
  workspace : Option WnckWorkspace
  window_type : WnckWindowType
  skip_tasklist : Bool
  minimized : Bool
  maximized : Bool
  shaded : Bool
  pinned : Bool
  active : Bool
  viewports : List WnckWorkspace
deriving DecidableEq, Repr

/-- A snapshot of the screen: `wnck_screen_get_width` and
`wnck_screen_get_height`. -/
structure WnckScreen where
  width : Int
  height : Int
deriving DecidableEq, Repr

def wnck_screen_get_width (screen : WnckScreen) : Int := screen.width

def wnck_screen_get_height (screen : WnckScreen) : Int := screen.height

def wnck_window_get_geometry (win : WnckWindow) : Geometry := win.geometry

def wnck_window_get_workspace (win : WnckWindow) : Option WnckWorkspace := win.workspace

def wnck_window_get_window_type (win : WnckWindow) : WnckWindowType := win.window_type

def wnck_window_is_skip_tasklist (win : WnckWindow) : Bool := win.skip_tasklist

def wnck_window_is_minimized (win : WnckWindow) : Bool := win.minimized

def wnck_window_is_maximized (win : WnckWindow) : Bool := win.maximized

def wnck_window_is_shaded (win : WnckWindow) : Bool := win.shaded

def wnck_window_is_pinned (win : WnckWindow) : Bool := win.pinned

def wnck_window_is_active (win : WnckWindow) : Bool := win.active

/-- The libwnck test `wnck_window_is_in_viewport (win, workspace)`; the snapshot
lists the workspaces whose viewport shows the window. -/
def wnck_window_is_in_viewport (win : WnckWindow) (workspace : WnckWorkspace) : Bool :=
  decide (workspace ∈ win.viewports)

/-! ## `ww-layout-expand.c` -/

/-- The loop variables `bx, by, br, bb` of `ww_layout_expand`
(`by` is reserved in Lean, hence `by_`). -/
structure ExpandBounds where
  bx : Int
  by_ : Int
  br : Int
  bb : Int
deriving DecidableEq, Repr

/-- The body of the `for` loop of `ww_layout_expand`, for an active window at
`(x, y)` of size `w` by `h`. -/
def ww_layout_expand_body (x y w h : Int) (b : ExpandBounds) (win : WnckWindow) :
    ExpandBounds :=
  if wnck_window_is_active win then
    b
  else
    let wx := (wnck_window_get_geometry win).x
    let wy := (wnck_window_get_geometry win).y
    let ww := (wnck_window_get_geometry win).width
    let wh := (wnck_window_get_geometry win).height
    let bx := if x > wx + ww then MAX b.bx (wx + ww) else b.bx
    let br := if x + w < wx then MIN b.br wx else b.br
    let by_ := if y > wy + wh then MAX b.by_ (wy + wh) else b.by_
    let bb := if y + h < wy then MIN b.bb wy else b.bb
    { bx := bx, by_ := by_, br := br, bb := bb }

/-- The values of `bx, by, br, bb` when the loop of `ww_layout_expand` ends. -/
def ww_layout_expand_bounds (screen : WnckScreen) (windows : List WnckWindow)
    (active : WnckWindow) : ExpandBounds :=
  let x := (wnck_window_get_geometry active).x
  let y := (wnck_window_get_geometry active).y
  let w := (wnck_window_get_geometry active).width
  let h := (wnck_window_get_geometry active).height
  windows.foldl (ww_layout_expand_body x y w h)
    { bx := 0, by_ := 0, br := wnck_screen_get_width screen,
      bb := wnck_screen_get_height screen }

/-- The handler `ww_layout_expand`: the geometry it sets on `active`.
The `struts` argument is ignored, as in the source. -/
def ww_layout_expand (screen : WnckScreen) (windows : List WnckWindow)
    (_struts : List WnckWindow) (active : WnckWindow) : Geometry :=
  let b := ww_layout_expand_bounds screen windows active
  { x := b.bx, y := b.by_, width := b.br - b.bx, height := b.bb - b.by_ }

/-! ## `ww-utils.c` -/

/-- The body of the `for` loop of `ww_filter_user_windows`;
`g_list_append (result, win)` puts `win` at the end of `result`. -/
def ww_filter_user_windows_body (current_workspace : Option WnckWorkspace)
    (result : List WnckWindow) (win : WnckWindow) : List WnckWindow :=
  if !wnck_window_is_skip_tasklist win &&
     !wnck_window_is_minimized win &&
     !wnck_window_is_maximized win &&
     !wnck_window_is_shaded win then
    let win_ws := wnck_window_get_workspace win
    match current_workspace with
    | none => result ++ [win]
    | some ws =>
      if (win_ws == some ws && wnck_window_is_in_viewport win ws) || win_ws == none then
        result ++ [win]
      else
        result
  else
    result

/-- The function `ww_filter_user_windows`. -/
def ww_filter_user_windows (windows : List WnckWindow)
    (current_workspace : Option WnckWorkspace) : List WnckWindow :=
  windows.foldl (ww_filter_user_windows_body current_workspace) []

/-- The body of the `for` loop of `ww_filter_strut_windows`. -/
def ww_filter_strut_windows_body (current_workspace : Option WnckWorkspace)
    (result : List WnckWindow) (win : WnckWindow) : List WnckWindow :=
  if wnck_window_get_window_type win == WnckWindowType.WNCK_WINDOW_DOCK then
    let win_ws := wnck_window_get_workspace win
    if current_workspace == none || win_ws == current_workspace || win_ws == none then
      result ++ [win]
    else
      result
  else
    result

/-- The function `ww_filter_strut_windows`. -/
def ww_filter_strut_windows (windows : List WnckWindow)
    (current_workspace : Option WnckWorkspace) : List WnckWindow :=
  windows.foldl (ww_filter_strut_windows_body current_workspace) []

/-- The macro `is_high(w, h)`, which is `(h > w)`. -/
def is_high (w h : Int) : Bool := decide (h > w)

/-- The macro `is_broad(w, h)`, which is `(w > h)`. -/
def is_broad (w h : Int) : Bool := decide (w > h)

/-- The loop variables `edge_l, edge_t, edge_r, edge_b` of `ww_calc_bounds`,
and the geometries it has passed to `g_warning` so far. -/
structure CalcBounds where
  edge_l : Int
  edge_t : Int
  edge_r : Int
  edge_b : Int
  warnings : List Geometry
deriving DecidableEq, Repr

/-- The body of the `for` loop of `ww_calc_bounds`. -/
def ww_calc_bounds_body (screen_w screen_h : Int) (e : CalcBounds) (win : WnckWindow) :
    CalcBounds :=
  let wx := (wnck_window_get_geometry win).x
  let wy := (wnck_window_get_geometry win).y
  let ww := (wnck_window_get_geometry win).width
  let wh := (wnck_window_get_geometry win).height
  if is_high ww wh && wx == 0 then
    { e with edge_l := MAX e.edge_l ww }
  else if is_broad ww wh && wy == 0 then
    { e with edge_t := MAX e.edge_t wh }
  else if is_high ww wh && (wx + ww) == screen_w then
    { e with edge_r := MIN e.edge_r wx }
  else if is_broad ww wh && (wy + wh) == screen_h then
    { e with edge_b := MIN e.edge_b wy }
  else
    { e with warnings := e.warnings ++ [{ x := wx, y := wy, width := ww, height := wh }] }

/-- The state of `ww_calc_bounds` when its loop ends. -/
def ww_calc_bounds_loop (screen : WnckScreen) (struts : List WnckWindow) : CalcBounds :=
  let edge_r := wnck_screen_get_width screen
  let edge_b := wnck_screen_get_height screen
  let screen_w := edge_r
  let screen_h := edge_b
  struts.foldl (ww_calc_bounds_body screen_w screen_h)
    { edge_l := 0, edge_t := 0, edge_r := edge_r, edge_b := edge_b, warnings := [] }

/-- The function `ww_calc_bounds`: the values stored through
`left, top, right, bottom`. -/
def ww_calc_bounds (screen : WnckScreen) (struts : List WnckWindow) :
    Int × Int × Int × Int :=
  let e := ww_calc_bounds_loop screen struts
  (e.edge_l, e.edge_t, e.edge_r, e.edge_b)

/-- The floating elements `ww_calc_bounds` warns about, in order. -/
def ww_calc_bounds_warnings (screen : WnckScreen) (struts : List WnckWindow) :
    List Geometry :=
  (ww_calc_bounds_loop screen struts).warnings

/-! ## The specification's wording, for comparison with the code -/

/-- The expand algorithm as the specification words it: `bx` is the maximum of
`0` and `wx+ww` over the non-active windows with `x > wx+ww`, and so on. -/
def spec_expand (screen : WnckScreen) (windows : List WnckWindow) (active : WnckWindow) :
    Geometry :=
  let x := active.geometry.x
  let y := active.geometry.y
  let w := active.geometry.width
  let h := active.geometry.height
  let others := windows.filter (fun win => !win.active)
  let bx := ((others.filter (fun win => decide (x > win.geometry.x + win.geometry.width))).map
    (fun win => win.geometry.x + win.geometry.width)).foldr max 0
  let br := ((others.filter (fun win => decide (x + w < win.geometry.x))).map
    (fun win => win.geometry.x)).foldr min screen.width
  let by_ := ((others.filter (fun win => decide (y > win.geometry.y + win.geometry.height))).map
    (fun win => win.geometry.y + win.geometry.height)).foldr max 0
  let bb := ((others.filter (fun win => decide (y + h < win.geometry.y))).map
    (fun win => win.geometry.y)).foldr min screen.height
  { x := bx, y := by_, width := br - bx, height := bb - by_ }

/-- One strut of the specification's edge-snapping fold: the first matching rule
of the four is applied to `(left, top, right, bottom)`. -/
def spec_calc_bounds_step (screen : WnckScreen) (b : Int × Int × Int × Int)
    (strut : Geometry) : Int × Int × Int × Int :=
  match b with
  | (left, top, right, bottom) =>
    if strut.height > strut.width ∧ strut.x = 0 then
      (max left (strut.x + strut.width), top, right, bottom)
    else if strut.width > strut.height ∧ strut.y = 0 then
      (left, max top (strut.y + strut.height), right, bottom)
    else if strut.height > strut.width ∧ strut.x + strut.width = screen.width then
      (left, top, min right strut.x, bottom)
    else if strut.width > strut.height ∧ strut.y + strut.height = screen.height then
      (left, top, right, min bottom strut.y)
    else
      (left, top, right, bottom)

/-- The specification's edge-snapping fold over the strut geometries. -/
def spec_calc_bounds (screen : WnckScreen) (struts : List Geometry) :
    Int × Int × Int × Int :=
  struts.foldl (spec_calc_bounds_step screen) (0, 0, screen.width, screen.height)

/-- The specification's user-window predicate. -/
def spec_is_user_window (current_workspace : Option WnckWorkspace) (win : WnckWindow) :
    Prop :=
  win.skip_tasklist = false ∧ win.minimized = false ∧ win.maximized = false ∧
  win.shaded = false ∧
  (current_workspace = none ∨
   (∃ ws, current_workspace = some ws ∧ win.workspace = some ws ∧ ws ∈ win.viewports) ∨
   win.workspace = none)

/-- The specification's strut-window predicate. -/
def spec_is_strut_window (current_workspace : Option WnckWorkspace) (win : WnckWindow) :
    Prop :=
  win.window_type = WnckWindowType.WNCK_WINDOW_DOCK ∧
  (current_workspace = none ∨ win.workspace = current_workspace ∨ win.workspace = none)

/-- The specification's edge-anchored strut: its rectangle touches one screen
edge and spans that edge in full. -/
def spec_edge_anchored (screen : WnckScreen) (g : Geometry) : Prop :=
  (g.x = 0 ∧ g.y ≤ 0 ∧ screen.height ≤ g.y + g.height) ∨
  (g.y = 0 ∧ g.x ≤ 0 ∧ screen.width ≤ g.x + g.width) ∨
  (g.x + g.width = screen.width ∧ g.y ≤ 0 ∧ screen.height ≤ g.y + g.height) ∨
  (g.y + g.height = screen.height ∧ g.x ≤ 0 ∧ screen.width ≤ g.x + g.width)


/-! ## Sample windows -/

/-- An ordinary application window on workspace `0`, shown in its viewport. -/
def normal_window (xid : Nat) (geometry : Geometry) (active : Bool) : WnckWindow :=
  { xid := xid, geometry := geometry, workspace := some 0,
    window_type := WnckWindowType.WNCK_WINDOW_NORMAL,
    skip_tasklist := false, minimized := false, maximized := false, shaded := false,
    pinned := false, active := active, viewports := [0] }

/-- A desktop panel: a pinned dock on every workspace, left out of the task list. -/
def panel_window (xid : Nat) (geometry : Geometry) : WnckWindow :=
  { xid := xid, geometry := geometry, workspace := none,
    window_type := WnckWindowType.WNCK_WINDOW_DOCK,
    skip_tasklist := true, minimized := false, maximized := false, shaded := false,
    pinned := true, active := false, viewports := [0] }

/-- The x extents `[x, x+width)` of two rectangles share a point. -/
def spec_x_overlap (g1 g2 : Geometry) : Prop :=
  ∃ p : Int, (g1.x ≤ p ∧ p < g1.x + g1.width) ∧ (g2.x ≤ p ∧ p < g2.x + g2.width)

/-- The y extents `[y, y+height)` of two rectangles share a point. -/
def spec_y_overlap (g1 g2 : Geometry) : Prop :=
  ∃ p : Int, (g1.y ≤ p ∧ p < g1.y + g1.height) ∧ (g2.y ≤ p ∧ p < g2.y + g2.height)

/-- The condition under which the loop body of `ww_filter_user_windows`
appends `win`: both nested `if` tests of the source pass. -/
def ww_filter_user_windows_keeps (current_workspace : Option WnckWorkspace)
    (win : WnckWindow) : Bool :=
  (!wnck_window_is_skip_tasklist win &&
   !wnck_window_is_minimized win &&
   !wnck_window_is_maximized win &&
   !wnck_window_is_shaded win) &&
  (match current_workspace with
   | none => true
   | some ws =>
     (wnck_window_get_workspace win == some ws && wnck_window_is_in_viewport win ws) ||
       wnck_window_get_workspace win == none)

/-- The condition under which the loop body of `ww_filter_strut_windows`
appends `win`. -/
def ww_filter_strut_windows_keeps (current_workspace : Option WnckWorkspace)
    (win : WnckWindow) : Bool :=
  wnck_window_get_window_type win == WnckWindowType.WNCK_WINDOW_DOCK &&
  (current_workspace == none || wnck_window_get_workspace win == current_workspace ||
    wnck_window_get_workspace win == none)

/-- The window `win` with its minimized, maximized, shaded and skip-tasklist
flags replaced. -/
def with_state_flags (minimized maximized shaded skip_tasklist : WnckWindow → Bool)
    (win : WnckWindow) : WnckWindow :=
  { win with minimized := minimized win, maximized := maximized win,
             shaded := shaded win, skip_tasklist := skip_tasklist win }

/-- The four edges held in the loop state of `ww_calc_bounds`. -/
def CalcBounds.edges (e : CalcBounds) : Int × Int × Int × Int :=
  (e.edge_l, e.edge_t, e.edge_r, e.edge_b)

/-- A `GError`: its domain, code and message. -/
structure GError where
  domain : Nat
  code : Int
  message : String
deriving DecidableEq, Repr

/-- What one call of a layout handler leaves behind: the geometry that libwnck
applied to the active window, if it applied one, and the `GError*` found at
`*error` afterwards. -/
structure HandlerOutcome where
  geometry_set : Option Geometry
  error : Option GError
deriving DecidableEq, Repr

/-- The handler `ww_layout_expand` called with an `active` pointer that may be
`NULL` (`none`) and with `*error` as the caller left it. The body of the source
has no test of `active` and no assignment through `error`. libwnck's
`wnck_window_get_geometry` and `wnck_window_set_geometry` both start with
`g_return_if_fail (WNCK_IS_WINDOW (window))`: given `NULL` the getter leaves
`x, y, w, h` at `uninit`, the values the uninitialised locals hold, and the
setter changes no window. -/
def ww_layout_expand_handler (screen : WnckScreen) (windows : List WnckWindow)
    (_struts : List WnckWindow) (active : Option WnckWindow) (uninit : Geometry)
    (error : Option GError) : HandlerOutcome :=
  let g := match active with
    | some win => wnck_window_get_geometry win
    | none => uninit
  let b := windows.foldl (ww_layout_expand_body g.x g.y g.width g.height)
    { bx := 0, by_ := 0, br := wnck_screen_get_width screen,
      bb := wnck_screen_get_height screen }
  { geometry_set :=
      match active with
      | some _ => some { x := b.bx, y := b.by_, width := b.br - b.bx, height := b.bb - b.by_ }
      | none => none,
    error := error }

/-- A dock shown on workspace `0` only: not pinned and listed in the task list. -/
def workspace_dock (xid : Nat) (geometry : Geometry) (minimized : Bool) : WnckWindow :=
  { xid := xid, geometry := geometry, workspace := some 0,
    window_type := WnckWindowType.WNCK_WINDOW_DOCK,
    skip_tasklist := false, minimized := minimized, maximized := false, shaded := false,
    pinned := false, active := false, viewports := [0] }

/-! ## Auxiliary lemmas -/

theorem MAX_eq_max (a b : Int) : MAX a b = max a b := by
  unfold MAX
  split <;> omega

theorem MIN_eq_min (a b : Int) : MIN a b = min a b := by
  unfold MIN
  split <;> omega

theorem foldr_max_start (l : List Int) (i a : Int) :
    l.foldr max (max i a) = max (l.foldr max i) a := by
  induction l with
  | nil => rfl
  | cons c l ih => simp only [List.foldr_cons, ih]; omega

theorem foldr_min_start (l : List Int) (i a : Int) :
    l.foldr min (min i a) = min (l.foldr min i) a := by
  induction l with
  | nil => rfl
  | cons c l ih => simp only [List.foldr_cons, ih]; omega

/-- The loop of `ww_layout_expand` from an arbitrary start, component by
component, as maxima and minima over the windows that pass each test. -/
theorem expand_foldl_eq (x y w h : Int) (windows : List WnckWindow) (b : ExpandBounds) :
    windows.foldl (ww_layout_expand_body x y w h) b =
      { bx := (((windows.filter (fun win => !win.active)).filter
            (fun win => decide (x > win.geometry.x + win.geometry.width))).map
            (fun win => win.geometry.x + win.geometry.width)).foldr max b.bx,
        by_ := (((windows.filter (fun win => !win.active)).filter
            (fun win => decide (y > win.geometry.y + win.geometry.height))).map
            (fun win => win.geometry.y + win.geometry.height)).foldr max b.by_,
        br := (((windows.filter (fun win => !win.active)).filter
            (fun win => decide (x + w < win.geometry.x))).map
            (fun win => win.geometry.x)).foldr min b.br,
        bb := (((windows.filter (fun win => !win.active)).filter
            (fun win => decide (y + h < win.geometry.y))).map
            (fun win => win.geometry.y)).foldr min b.bb } := by
  induction windows generalizing b with
  | nil => rfl
  | cons win rest ih =>
    rw [List.foldl_cons, ih]
    unfold ww_layout_expand_body wnck_window_is_active wnck_window_get_geometry
    cases hact : win.active with
    | true => simp [List.filter_cons, hact]
    | false =>
      simp only [List.filter_cons, hact, Bool.not_false, if_true, Bool.false_eq_true,
        if_false, MAX_eq_max, MIN_eq_min]
      congr 1
      · by_cases hc : x > win.geometry.x + win.geometry.width
        · simp only [hc, decide_True, if_true, List.map_cons, List.foldr_cons,
            foldr_max_start]
          omega
        · simp [hc]
      · by_cases hc : y > win.geometry.y + win.geometry.height
        · simp only [hc, decide_True, if_true, List.map_cons, List.foldr_cons,
            foldr_max_start]
          omega
        · simp [hc]
      · by_cases hc : x + w < win.geometry.x
        · simp only [hc, decide_True, if_true, List.map_cons, List.foldr_cons,
            foldr_min_start]
          omega
        · simp [hc]
      · by_cases hc : y + h < win.geometry.y
        · simp only [hc, decide_True, if_true, List.map_cons, List.foldr_cons,
            foldr_min_start]
          omega
        · simp [hc]

/-! ## Claims -/

/-- C1: `ww_layout_expand` sets exactly the rectangle of the specification's
algorithm, for every screen, window list and active window; on a 1920x1080
screen, an active window `{100,100,200,200}` next to `{400,100,200,200}` is
set to `{0,0,400,1080}`. -/
theorem ww_layout_expand_eq_spec_expand :
    (∀ (screen : WnckScreen) (windows struts : List WnckWindow) (active : WnckWindow),
      ww_layout_expand screen windows struts active = spec_expand screen windows active) ∧
    ww_layout_expand ⟨1920, 1080⟩
      [normal_window 1 ⟨100, 100, 200, 200⟩ true, normal_window 2 ⟨400, 100, 200, 200⟩ false]
      [] (normal_window 1 ⟨100, 100, 200, 200⟩ true) = ⟨0, 0, 400, 1080⟩ := by
  refine ⟨?_, by decide⟩
  intro screen windows struts active
  unfold ww_layout_expand ww_layout_expand_bounds spec_expand
  simp only [expand_foldl_eq, wnck_window_get_geometry, wnck_screen_get_width,
    wnck_screen_get_height]

/-- C2: on a 1920x1080 screen, an active window `{100,100,200,200}` and a
user window `{300,100,200,200}` share the edge `x = 300` and do not overlap
along the x axis, yet `ww_layout_expand` sets the active window to
`{0,0,1920,1080}`, which overlaps the other window along both axes: the strict
test `x + w < wx` skips a window that starts exactly where the active one ends. -/
theorem ww_layout_expand_shared_edge_overlap :
    ¬ spec_x_overlap (normal_window 1 ⟨100, 100, 200, 200⟩ true).geometry
        (normal_window 2 ⟨300, 100, 200, 200⟩ false).geometry ∧
    ww_layout_expand ⟨1920, 1080⟩
      [normal_window 1 ⟨100, 100, 200, 200⟩ true, normal_window 2 ⟨300, 100, 200, 200⟩ false]
      [] (normal_window 1 ⟨100, 100, 200, 200⟩ true) = ⟨0, 0, 1920, 1080⟩ ∧
    spec_x_overlap ⟨0, 0, 1920, 1080⟩ (normal_window 2 ⟨300, 100, 200, 200⟩ false).geometry ∧
    spec_y_overlap ⟨0, 0, 1920, 1080⟩ (normal_window 2 ⟨300, 100, 200, 200⟩ false).geometry := by
  refine ⟨?_, by decide, ⟨300, by decide⟩, ⟨100, by decide⟩⟩
  rintro ⟨p, ⟨_, h1⟩, h2, _⟩
  simp only [normal_window] at h1 h2
  omega

theorem ww_filter_user_windows_body_eq (cw : Option WnckWorkspace)
    (result : List WnckWindow) (win : WnckWindow) :
    ww_filter_user_windows_body cw result win =
      if ww_filter_user_windows_keeps cw win then result ++ [win] else result := by
  unfold ww_filter_user_windows_body ww_filter_user_windows_keeps
  cases cw <;> cases wnck_window_is_skip_tasklist win <;>
    cases wnck_window_is_minimized win <;> cases wnck_window_is_maximized win <;>
    cases wnck_window_is_shaded win <;> simp

theorem ww_filter_user_windows_foldl (cw : Option WnckWorkspace)
    (windows result : List WnckWindow) :
    windows.foldl (ww_filter_user_windows_body cw) result =
      result ++ windows.filter (ww_filter_user_windows_keeps cw) := by
  induction windows generalizing result with
  | nil => simp
  | cons win rest ih =>
    rw [List.foldl_cons, ih, ww_filter_user_windows_body_eq, List.filter_cons]
    split <;> simp

theorem ww_filter_user_windows_eq_filter (windows : List WnckWindow)
    (cw : Option WnckWorkspace) :
    ww_filter_user_windows windows cw =
      windows.filter (ww_filter_user_windows_keeps cw) := by
  simp [ww_filter_user_windows, ww_filter_user_windows_foldl]

theorem ww_filter_user_windows_keeps_iff (cw : Option WnckWorkspace) (win : WnckWindow) :
    ww_filter_user_windows_keeps cw win = true ↔ spec_is_user_window cw win := by
  unfold ww_filter_user_windows_keeps spec_is_user_window wnck_window_is_skip_tasklist
    wnck_window_is_minimized wnck_window_is_maximized wnck_window_is_shaded
    wnck_window_get_workspace wnck_window_is_in_viewport
  cases cw with
  | none => simp [and_assoc]
  | some ws =>
    simp only [Bool.and_eq_true, Bool.not_eq_true', Bool.or_eq_true, beq_iff_eq,
      decide_eq_true_eq, Option.some.injEq, false_or, reduceCtorEq]
    constructor
    · rintro ⟨⟨⟨⟨h1, h2⟩, h3⟩, h4⟩, h5⟩
      refine ⟨h1, h2, h3, h4, ?_⟩
      rcases h5 with ⟨h5, h6⟩ | h5
      · exact Or.inl ⟨ws, rfl, h5, h6⟩
      · exact Or.inr h5
    · rintro ⟨h1, h2, h3, h4, h5⟩
      refine ⟨⟨⟨⟨h1, h2⟩, h3⟩, h4⟩, ?_⟩
      rcases h5 with ⟨ws2, h5, h6, h7⟩ | h5
      · cases h5
        exact Or.inl ⟨h6, h7⟩
      · exact Or.inr h5

theorem ww_filter_strut_windows_body_eq (cw : Option WnckWorkspace)
    (result : List WnckWindow) (win : WnckWindow) :
    ww_filter_strut_windows_body cw result win =
      if ww_filter_strut_windows_keeps cw win then result ++ [win] else result := by
  unfold ww_filter_strut_windows_body ww_filter_strut_windows_keeps
  split <;> simp_all

theorem ww_filter_strut_windows_foldl (cw : Option WnckWorkspace)
    (windows result : List WnckWindow) :
    windows.foldl (ww_filter_strut_windows_body cw) result =
      result ++ windows.filter (ww_filter_strut_windows_keeps cw) := by
  induction windows generalizing result with
  | nil => simp
  | cons win rest ih =>
    rw [List.foldl_cons, ih, ww_filter_strut_windows_body_eq, List.filter_cons]
    split <;> simp

theorem ww_filter_strut_windows_eq_filter (windows : List WnckWindow)
    (cw : Option WnckWorkspace) :
    ww_filter_strut_windows windows cw =
      windows.filter (ww_filter_strut_windows_keeps cw) := by
  simp [ww_filter_strut_windows, ww_filter_strut_windows_foldl]

theorem ww_filter_strut_windows_keeps_iff (cw : Option WnckWorkspace) (win : WnckWindow) :
    ww_filter_strut_windows_keeps cw win = true ↔ spec_is_strut_window cw win := by
  unfold ww_filter_strut_windows_keeps spec_is_strut_window wnck_window_get_window_type
    wnck_window_get_workspace
  simp only [Bool.and_eq_true, Bool.or_eq_true, beq_iff_eq]
  constructor
  · rintro ⟨h1, (h2 | h2) | h2⟩
    · exact ⟨h1, Or.inl h2⟩
    · exact ⟨h1, Or.inr (Or.inl h2)⟩
    · exact ⟨h1, Or.inr (Or.inr h2)⟩
  · rintro ⟨h1, h2 | h2 | h2⟩
    · exact ⟨h1, Or.inl (Or.inl h2)⟩
    · exact ⟨h1, Or.inl (Or.inr h2)⟩
    · exact ⟨h1, Or.inr h2⟩

/-- C3: a window occurs in the output of `ww_filter_user_windows` if and only
if it occurs in the input and is not skip-tasklist, not minimized, not
maximized, not shaded, and `current_workspace` is absent, or the window is on
`current_workspace` and in its viewport, or the window has no workspace. -/
theorem ww_filter_user_windows_mem_iff (windows : List WnckWindow)
    (current_workspace : Option WnckWorkspace) (win : WnckWindow) :
    win ∈ ww_filter_user_windows windows current_workspace ↔
      win ∈ windows ∧ spec_is_user_window current_workspace win := by
  rw [ww_filter_user_windows_eq_filter, List.mem_filter, ww_filter_user_windows_keeps_iff]

/-- C4: a window occurs in the output of `ww_filter_strut_windows` if and only
if it occurs in the input, its type is dock, and `current_workspace` is
absent, or equals its workspace, or the window has no workspace; replacing the
minimized, maximized, shaded and skip-tasklist flags of the input windows
changes nothing but those flags in the output. -/
theorem ww_filter_strut_windows_mem_iff (windows : List WnckWindow)
    (current_workspace : Option WnckWorkspace) :
    (∀ win : WnckWindow, win ∈ ww_filter_strut_windows windows current_workspace ↔
      win ∈ windows ∧ spec_is_strut_window current_workspace win) ∧
    (∀ minimized maximized shaded skip_tasklist : WnckWindow → Bool,
      ww_filter_strut_windows
          (windows.map (with_state_flags minimized maximized shaded skip_tasklist))
          current_workspace =
        (ww_filter_strut_windows windows current_workspace).map
          (with_state_flags minimized maximized shaded skip_tasklist)) := by
  constructor
  · intro win
    rw [ww_filter_strut_windows_eq_filter, List.mem_filter, ww_filter_strut_windows_keeps_iff]
  · intro m M s k
    rw [ww_filter_strut_windows_eq_filter, ww_filter_strut_windows_eq_filter,
      List.filter_map]
    rfl

theorem ww_calc_bounds_body_edges (screen : WnckScreen) (e : CalcBounds) (win : WnckWindow) :
    (ww_calc_bounds_body screen.width screen.height e win).edges =
      spec_calc_bounds_step screen e.edges win.geometry := by
  unfold ww_calc_bounds_body spec_calc_bounds_step CalcBounds.edges is_high is_broad
    wnck_window_get_geometry
  simp only [Bool.and_eq_true, decide_eq_true_eq, beq_iff_eq, gt_iff_lt, MAX_eq_max,
    MIN_eq_min]
  split_ifs <;> simp_all

theorem ww_calc_bounds_foldl_edges (screen : WnckScreen) (struts : List WnckWindow)
    (e : CalcBounds) :
    (struts.foldl (ww_calc_bounds_body screen.width screen.height) e).edges =
      (struts.map (fun win => win.geometry)).foldl (spec_calc_bounds_step screen) e.edges := by
  induction struts generalizing e with
  | nil => rfl
  | cons win rest ih =>
    rw [List.foldl_cons, ih, ww_calc_bounds_body_edges, List.map_cons, List.foldl_cons]

theorem ww_calc_bounds_eq_foldl (screen : WnckScreen) (struts : List WnckWindow) :
    ww_calc_bounds screen struts =
      (struts.map (fun win => win.geometry)).foldl (spec_calc_bounds_step screen)
        (0, 0, screen.width, screen.height) :=
  ww_calc_bounds_foldl_edges screen struts
    { edge_l := 0, edge_t := 0, edge_r := screen.width, edge_b := screen.height,
      warnings := [] }

theorem spec_calc_bounds_step_comm (screen : WnckScreen) (b : Int × Int × Int × Int)
    (g1 g2 : Geometry) :
    spec_calc_bounds_step screen (spec_calc_bounds_step screen b g1) g2 =
      spec_calc_bounds_step screen (spec_calc_bounds_step screen b g2) g1 := by
  obtain ⟨l, t, r, bt⟩ := b
  unfold spec_calc_bounds_step
  split_ifs <;> simp only [Prod.mk.injEq, true_and, and_true] <;> omega

theorem spec_calc_bounds_step_mono (screen : WnckScreen) (b : Int × Int × Int × Int)
    (g : Geometry) :
    b.1 ≤ (spec_calc_bounds_step screen b g).1 ∧
    b.2.1 ≤ (spec_calc_bounds_step screen b g).2.1 ∧
    (spec_calc_bounds_step screen b g).2.2.1 ≤ b.2.2.1 ∧
    (spec_calc_bounds_step screen b g).2.2.2 ≤ b.2.2.2 := by
  obtain ⟨l, t, r, bt⟩ := b
  unfold spec_calc_bounds_step
  split_ifs <;> simp only <;> omega

theorem ww_calc_bounds_perm (screen : WnckScreen) (struts1 struts2 : List WnckWindow)
    (h : struts1.Perm struts2) :
    ww_calc_bounds screen struts1 = ww_calc_bounds screen struts2 := by
  rw [ww_calc_bounds_eq_foldl, ww_calc_bounds_eq_foldl]
  exact List.Perm.foldl_eq' (h.map _)
    (fun x _ y _ z => spec_calc_bounds_step_comm screen z x y) _

/-- C5: for every screen and strut list, `ww_calc_bounds` returns the result of
the specification's edge-snapping fold over the strut geometries; on a
1920x1080 screen the single strut `{0,0,1920,30}` gives `(0,30,1920,1080)`. -/
theorem ww_calc_bounds_eq_spec_calc_bounds :
    (∀ (screen : WnckScreen) (struts : List WnckWindow),
      ww_calc_bounds screen struts =
        spec_calc_bounds screen (struts.map (fun win => win.geometry))) ∧
    ww_calc_bounds ⟨1920, 1080⟩ [panel_window 1 ⟨0, 0, 1920, 30⟩] = (0, 30, 1920, 1080) :=
  ⟨fun screen struts => ww_calc_bounds_eq_foldl screen struts, by decide⟩

theorem ww_layout_expand_body_inv (x y w h : Int) (b : ExpandBounds) (win : WnckWindow) :
    (b.bx ≤ (ww_layout_expand_body x y w h b win).bx ∧
      ((ww_layout_expand_body x y w h b win).bx = b.bx ∨
        (ww_layout_expand_body x y w h b win).bx < x)) ∧
    ((ww_layout_expand_body x y w h b win).br ≤ b.br ∧
      ((ww_layout_expand_body x y w h b win).br = b.br ∨
        x + w < (ww_layout_expand_body x y w h b win).br)) ∧
    (b.by_ ≤ (ww_layout_expand_body x y w h b win).by_ ∧
      ((ww_layout_expand_body x y w h b win).by_ = b.by_ ∨
        (ww_layout_expand_body x y w h b win).by_ < y)) ∧
    ((ww_layout_expand_body x y w h b win).bb ≤ b.bb ∧
      ((ww_layout_expand_body x y w h b win).bb = b.bb ∨
        y + h < (ww_layout_expand_body x y w h b win).bb)) := by
  unfold ww_layout_expand_body
  split
  · simp
  · simp only [MAX_eq_max, MIN_eq_min]
    refine ⟨?_, ?_, ?_, ?_⟩ <;> split <;> omega

/-- Each bound only tightens during the loop of `ww_layout_expand`, and a bound
that has moved lies strictly outside the active window on its side. -/
theorem ww_layout_expand_foldl_inv (x y w h : Int) (windows : List WnckWindow)
    (b : ExpandBounds) :
    (b.bx ≤ (windows.foldl (ww_layout_expand_body x y w h) b).bx ∧
      ((windows.foldl (ww_layout_expand_body x y w h) b).bx = b.bx ∨
        (windows.foldl (ww_layout_expand_body x y w h) b).bx < x)) ∧
    ((windows.foldl (ww_layout_expand_body x y w h) b).br ≤ b.br ∧
      ((windows.foldl (ww_layout_expand_body x y w h) b).br = b.br ∨
        x + w < (windows.foldl (ww_layout_expand_body x y w h) b).br)) ∧
    (b.by_ ≤ (windows.foldl (ww_layout_expand_body x y w h) b).by_ ∧
      ((windows.foldl (ww_layout_expand_body x y w h) b).by_ = b.by_ ∨
        (windows.foldl (ww_layout_expand_body x y w h) b).by_ < y)) ∧
    ((windows.foldl (ww_layout_expand_body x y w h) b).bb ≤ b.bb ∧
      ((windows.foldl (ww_layout_expand_body x y w h) b).bb = b.bb ∨
        y + h < (windows.foldl (ww_layout_expand_body x y w h) b).bb)) := by
  induction windows generalizing b with
  | nil => simp
  | cons win rest ih =>
    rw [List.foldl_cons]
    have h1 := ww_layout_expand_body_inv x y w h b win
    have h2 := ih (ww_layout_expand_body x y w h b win)
    omega

/-- C6 (claim as stated fails): on a 1920x1080 screen, with an active window
`{2500,100,200,200}` lying beyond the right screen edge and a user window
`{2000,100,200,200}` to its left, all widths and heights are non-negative, yet
`ww_layout_expand` sets the rectangle `{2200,0,-280,1080}` of negative width. -/
theorem ww_layout_expand_negative_width :
    (0 : Int) ≤ (WnckScreen.mk 1920 1080).width ∧ (0 : Int) ≤ (WnckScreen.mk 1920 1080).height ∧
    0 ≤ (normal_window 1 ⟨2500, 100, 200, 200⟩ true).geometry.width ∧
    0 ≤ (normal_window 1 ⟨2500, 100, 200, 200⟩ true).geometry.height ∧
    (∀ win ∈ [normal_window 1 ⟨2500, 100, 200, 200⟩ true,
              normal_window 2 ⟨2000, 100, 200, 200⟩ false],
      0 ≤ win.geometry.width ∧ 0 ≤ win.geometry.height) ∧
    ww_layout_expand ⟨1920, 1080⟩
      [normal_window 1 ⟨2500, 100, 200, 200⟩ true, normal_window 2 ⟨2000, 100, 200, 200⟩ false]
      [] (normal_window 1 ⟨2500, 100, 200, 200⟩ true) = ⟨2200, 0, -280, 1080⟩ ∧
    ¬ (0 ≤ (ww_layout_expand ⟨1920, 1080⟩
      [normal_window 1 ⟨2500, 100, 200, 200⟩ true, normal_window 2 ⟨2000, 100, 200, 200⟩ false]
      [] (normal_window 1 ⟨2500, 100, 200, 200⟩ true)).width) := by
  decide

/-- C6 (amended): for every screen with width and height at least 0, every
active window with width and height at least 0 whose rectangle is not wholly
off the screen (`x <= screen width`, `0 <= x+w`, `y <= screen height`,
`0 <= y+h`), and every list of user windows with widths and heights at least
0, the rectangle set by `ww_layout_expand` has width and height at least 0. -/
theorem ww_layout_expand_well_formed (screen : WnckScreen) (windows struts : List WnckWindow)
    (active : WnckWindow)
    (hscreen : 0 ≤ screen.width ∧ 0 ≤ screen.height)
    (hactive : 0 ≤ active.geometry.width ∧ 0 ≤ active.geometry.height)
    (_hwindows : ∀ win ∈ windows, 0 ≤ win.geometry.width ∧ 0 ≤ win.geometry.height)
    (hx : active.geometry.x ≤ screen.width ∧ 0 ≤ active.geometry.x + active.geometry.width)
    (hy : active.geometry.y ≤ screen.height ∧
      0 ≤ active.geometry.y + active.geometry.height) :
    0 ≤ (ww_layout_expand screen windows struts active).width ∧
    0 ≤ (ww_layout_expand screen windows struts active).height := by
  have inv := ww_layout_expand_foldl_inv active.geometry.x active.geometry.y
    active.geometry.width active.geometry.height windows
    { bx := 0, by_ := 0, br := screen.width, bb := screen.height }
  unfold ww_layout_expand ww_layout_expand_bounds wnck_window_get_geometry
    wnck_screen_get_width wnck_screen_get_height
  simp only at inv ⊢
  omega

/-- C6 (amended), applied: screen 1920x1080, active `{100,100,200,200}`, other
window `{400,100,200,200}`. -/
theorem ww_layout_expand_well_formed_witness :
    ((0 : Int) ≤ (WnckScreen.mk 1920 1080).width ∧ (0 : Int) ≤ (WnckScreen.mk 1920 1080).height) ∧
    0 ≤ (ww_layout_expand ⟨1920, 1080⟩
      [normal_window 1 ⟨100, 100, 200, 200⟩ true, normal_window 2 ⟨400, 100, 200, 200⟩ false]
      [] (normal_window 1 ⟨100, 100, 200, 200⟩ true)).width ∧
    0 ≤ (ww_layout_expand ⟨1920, 1080⟩
      [normal_window 1 ⟨100, 100, 200, 200⟩ true, normal_window 2 ⟨400, 100, 200, 200⟩ false]
      [] (normal_window 1 ⟨100, 100, 200, 200⟩ true)).height :=
  ⟨by decide,
   ww_layout_expand_well_formed ⟨1920, 1080⟩
    [normal_window 1 ⟨100, 100, 200, 200⟩ true, normal_window 2 ⟨400, 100, 200, 200⟩ false]
    [] (normal_window 1 ⟨100, 100, 200, 200⟩ true)
    (by decide) (by decide) (by decide) (by decide) (by decide)⟩

/-- C7: for every screen and every two strut lists that are permutations of
each other, `ww_calc_bounds` returns the same `(left, top, right, bottom)`. -/
theorem ww_calc_bounds_reorder (screen : WnckScreen) (struts1 struts2 : List WnckWindow)
    (h : struts1.Perm struts2) :
    ww_calc_bounds screen struts1 = ww_calc_bounds screen struts2 :=
  ww_calc_bounds_perm screen struts1 struts2 h

/-- C7, applied: a top panel and a left panel on a 1920x1080 screen, in either
order. -/
theorem ww_calc_bounds_reorder_witness :
    [panel_window 1 ⟨0, 0, 1920, 30⟩, panel_window 2 ⟨0, 30, 40, 1050⟩].Perm
      [panel_window 2 ⟨0, 30, 40, 1050⟩, panel_window 1 ⟨0, 0, 1920, 30⟩] ∧
    ww_calc_bounds ⟨1920, 1080⟩
        [panel_window 1 ⟨0, 0, 1920, 30⟩, panel_window 2 ⟨0, 30, 40, 1050⟩] =
      ww_calc_bounds ⟨1920, 1080⟩
        [panel_window 2 ⟨0, 30, 40, 1050⟩, panel_window 1 ⟨0, 0, 1920, 30⟩] :=
  ⟨List.Perm.swap _ _ _,
   ww_calc_bounds_reorder ⟨1920, 1080⟩ _ _ (List.Perm.swap _ _ _)⟩

/-- C8: for every screen, every strut list and every strut added to it at any
position, the result of `ww_calc_bounds` with the strut has `left` and `top`
no smaller and `right` and `bottom` no larger than the result without it. -/
theorem ww_calc_bounds_monotone (screen : WnckScreen) (before after : List WnckWindow)
    (s : WnckWindow) :
    (ww_calc_bounds screen (before ++ after)).1 ≤
      (ww_calc_bounds screen (before ++ s :: after)).1 ∧
    (ww_calc_bounds screen (before ++ after)).2.1 ≤
      (ww_calc_bounds screen (before ++ s :: after)).2.1 ∧
    (ww_calc_bounds screen (before ++ s :: after)).2.2.1 ≤
      (ww_calc_bounds screen (before ++ after)).2.2.1 ∧
    (ww_calc_bounds screen (before ++ s :: after)).2.2.2 ≤
      (ww_calc_bounds screen (before ++ after)).2.2.2 := by
  have hperm : (before ++ s :: after).Perm ((before ++ after) ++ [s]) := by
    rw [List.append_assoc]
    exact List.Perm.append_left before (List.perm_append_singleton s after).symm
  rw [ww_calc_bounds_perm screen _ _ hperm]
  simp only [ww_calc_bounds_eq_foldl, List.map_append, List.foldl_append, List.map_cons,
    List.map_nil, List.foldl_cons, List.foldl_nil]
  exact spec_calc_bounds_step_mono screen _ _

theorem ww_calc_bounds_body_warnings_mono (sw sh : Int) (e : CalcBounds) (win : WnckWindow)
    (g : Geometry) (hg : g ∈ e.warnings) :
    g ∈ (ww_calc_bounds_body sw sh e win).warnings := by
  unfold ww_calc_bounds_body
  simp only
  split_ifs <;> simp [hg]

theorem ww_calc_bounds_foldl_warnings_mono (sw sh : Int) (struts : List WnckWindow)
    (e : CalcBounds) (g : Geometry) (hg : g ∈ e.warnings) :
    g ∈ (struts.foldl (ww_calc_bounds_body sw sh) e).warnings := by
  induction struts generalizing e with
  | nil => exact hg
  | cons win rest ih =>
    rw [List.foldl_cons]
    exact ih _ (ww_calc_bounds_body_warnings_mono sw sh e win g hg)

theorem ww_calc_bounds_body_floating (sw sh : Int) (e : CalcBounds) (s : WnckWindow)
    (h : ¬ (s.geometry.height > s.geometry.width ∧ s.geometry.x = 0) ∧
      ¬ (s.geometry.width > s.geometry.height ∧ s.geometry.y = 0) ∧
      ¬ (s.geometry.height > s.geometry.width ∧ s.geometry.x + s.geometry.width = sw) ∧
      ¬ (s.geometry.width > s.geometry.height ∧ s.geometry.y + s.geometry.height = sh)) :
    ww_calc_bounds_body sw sh e s = { e with warnings := e.warnings ++ [s.geometry] } := by
  obtain ⟨h1, h2, h3, h4⟩ := h
  unfold ww_calc_bounds_body is_high is_broad wnck_window_get_geometry
  simp only [Bool.and_eq_true, decide_eq_true_eq, beq_iff_eq]
  rw [if_neg h1, if_neg h2, if_neg h3, if_neg h4]

/-- C9 (claim as stated fails): on a 1920x1080 screen the strut `{50,0,100,20}`
touches the top edge without spanning it, so it is not edge-anchored, yet
`ww_calc_bounds` treats it as a top panel: the bounds become
`(0,20,1920,1080)` instead of staying `(0,0,1920,1080)`, and no floating
element is reported. -/
theorem ww_calc_bounds_short_top_strut :
    ¬ spec_edge_anchored ⟨1920, 1080⟩ (panel_window 1 ⟨50, 0, 100, 20⟩).geometry ∧
    ww_calc_bounds ⟨1920, 1080⟩ [] = (0, 0, 1920, 1080) ∧
    ww_calc_bounds ⟨1920, 1080⟩ [panel_window 1 ⟨50, 0, 100, 20⟩] = (0, 20, 1920, 1080) ∧
    ww_calc_bounds ⟨1920, 1080⟩ [panel_window 1 ⟨50, 0, 100, 20⟩] ≠
      ww_calc_bounds ⟨1920, 1080⟩ [] ∧
    ww_calc_bounds_warnings ⟨1920, 1080⟩ [panel_window 1 ⟨50, 0, 100, 20⟩] = [] := by
  refine ⟨?_, by decide, by decide, by decide, by decide⟩
  simp [spec_edge_anchored, panel_window]

/-- C9 (amended): for every screen and strut list, adding at any position a
strut that matches none of the four rules of `ww_calc_bounds` (it is not tall
with `x = 0`, not broad with `y = 0`, not tall with `x+width = screen width`,
not broad with `y+height = screen height`) leaves `(left, top, right, bottom)`
unchanged, and the strut is reported as a floating element. -/
theorem ww_calc_bounds_floating_ignored (screen : WnckScreen) (before after : List WnckWindow)
    (s : WnckWindow)
    (h : ¬ (s.geometry.height > s.geometry.width ∧ s.geometry.x = 0) ∧
      ¬ (s.geometry.width > s.geometry.height ∧ s.geometry.y = 0) ∧
      ¬ (s.geometry.height > s.geometry.width ∧
          s.geometry.x + s.geometry.width = screen.width) ∧
      ¬ (s.geometry.width > s.geometry.height ∧
          s.geometry.y + s.geometry.height = screen.height)) :
    ww_calc_bounds screen (before ++ s :: after) = ww_calc_bounds screen (before ++ after) ∧
    s.geometry ∈ ww_calc_bounds_warnings screen (before ++ s :: after) := by
  constructor
  · have hb := fun e => ww_calc_bounds_body_floating screen.width screen.height e s h
    unfold ww_calc_bounds ww_calc_bounds_loop wnck_screen_get_width wnck_screen_get_height
    simp only [List.foldl_append, List.foldl_cons, hb]
    have e1 := ww_calc_bounds_foldl_edges screen after
      { (before.foldl (ww_calc_bounds_body screen.width screen.height)
          { edge_l := 0, edge_t := 0, edge_r := screen.width, edge_b := screen.height,
            warnings := [] }) with
        warnings := (before.foldl (ww_calc_bounds_body screen.width screen.height)
          { edge_l := 0, edge_t := 0, edge_r := screen.width, edge_b := screen.height,
            warnings := [] }).warnings ++ [s.geometry] }
    have e2 := ww_calc_bounds_foldl_edges screen after
      (before.foldl (ww_calc_bounds_body screen.width screen.height)
          { edge_l := 0, edge_t := 0, edge_r := screen.width, edge_b := screen.height,
            warnings := [] })
    simp only [CalcBounds.edges] at e1 e2
    rw [e1, e2]
  · unfold ww_calc_bounds_warnings ww_calc_bounds_loop wnck_screen_get_width
      wnck_screen_get_height
    simp only [List.foldl_append, List.foldl_cons]
    apply ww_calc_bounds_foldl_warnings_mono
    rw [ww_calc_bounds_body_floating screen.width screen.height _ s h]
    simp

/-- C9 (amended), applied: on a 1920x1080 screen with a top panel
`{0,0,1920,30}`, the strut `{50,50,100,20}` touches no edge. -/
theorem ww_calc_bounds_floating_ignored_witness :
    ww_calc_bounds ⟨1920, 1080⟩
        ([panel_window 1 ⟨0, 0, 1920, 30⟩] ++ panel_window 2 ⟨50, 50, 100, 20⟩ :: []) =
      ww_calc_bounds ⟨1920, 1080⟩ ([panel_window 1 ⟨0, 0, 1920, 30⟩] ++ []) ∧
    (panel_window 2 ⟨50, 50, 100, 20⟩).geometry ∈
      ww_calc_bounds_warnings ⟨1920, 1080⟩
        ([panel_window 1 ⟨0, 0, 1920, 30⟩] ++ panel_window 2 ⟨50, 50, 100, 20⟩ :: []) :=
  ww_calc_bounds_floating_ignored ⟨1920, 1080⟩ [panel_window 1 ⟨0, 0, 1920, 30⟩] []
    (panel_window 2 ⟨50, 50, 100, 20⟩) (by decide)

/-- C10: for every window list in which each dock is tagged skip-tasklist and
every `current_workspace`, no window occurs both in the output of
`ww_filter_user_windows` and in the output of `ww_filter_strut_windows`. -/
theorem ww_filter_user_strut_disjoint (windows : List WnckWindow)
    (current_workspace : Option WnckWorkspace)
    (hdock : ∀ win ∈ windows,
      win.window_type = WnckWindowType.WNCK_WINDOW_DOCK → win.skip_tasklist = true)
    (win : WnckWindow) :
    ¬ (win ∈ ww_filter_user_windows windows current_workspace ∧
       win ∈ ww_filter_strut_windows windows current_workspace) := by
  rintro ⟨hu, hs⟩
  rw [ww_filter_user_windows_eq_filter, List.mem_filter,
    ww_filter_user_windows_keeps_iff] at hu
  rw [ww_filter_strut_windows_eq_filter, List.mem_filter,
    ww_filter_strut_windows_keeps_iff] at hs
  have h1 := hdock win hu.1 hs.2.1
  have h2 := hu.2.1
  rw [h1] at h2
  exact Bool.noConfusion h2

/-- C10, applied: an application window and a panel, on workspace `0`. -/
theorem ww_filter_user_strut_disjoint_witness :
    (∀ win ∈ [normal_window 1 ⟨100, 100, 200, 200⟩ true, panel_window 2 ⟨0, 0, 1920, 30⟩],
      win.window_type = WnckWindowType.WNCK_WINDOW_DOCK → win.skip_tasklist = true) ∧
    ¬ (panel_window 2 ⟨0, 0, 1920, 30⟩ ∈
        ww_filter_user_windows
          [normal_window 1 ⟨100, 100, 200, 200⟩ true, panel_window 2 ⟨0, 0, 1920, 30⟩]
          (some 0) ∧
       panel_window 2 ⟨0, 0, 1920, 30⟩ ∈
        ww_filter_strut_windows
          [normal_window 1 ⟨100, 100, 200, 200⟩ true, panel_window 2 ⟨0, 0, 1920, 30⟩]
          (some 0)) :=
  ⟨by decide,
   ww_filter_user_strut_disjoint
    [normal_window 1 ⟨100, 100, 200, 200⟩ true, panel_window 2 ⟨0, 0, 1920, 30⟩] (some 0)
    (by decide) (panel_window 2 ⟨0, 0, 1920, 30⟩)⟩

/-- C11: for every window list and `current_workspace`, the outputs of
`ww_filter_user_windows` and of `ww_filter_strut_windows` are each a
subsequence of the input: the kept windows stand in their input order and no
input occurrence is kept twice. -/
theorem ww_filter_windows_stable (windows : List WnckWindow)
    (current_workspace : Option WnckWorkspace) :
    (ww_filter_user_windows windows current_workspace).Sublist windows ∧
    (ww_filter_strut_windows windows current_workspace).Sublist windows := by
  rw [ww_filter_user_windows_eq_filter, ww_filter_strut_windows_eq_filter]
  exact ⟨List.filter_sublist _, List.filter_sublist _⟩

theorem ww_filter_user_windows_keeps_no_workspace (win : WnckWindow)
    (hws : win.workspace = none) (cw1 cw2 : Option WnckWorkspace) :
    ww_filter_user_windows_keeps cw1 win = ww_filter_user_windows_keeps cw2 win := by
  unfold ww_filter_user_windows_keeps wnck_window_get_workspace
  cases cw1 <;> cases cw2 <;> simp [hws]

theorem ww_filter_strut_windows_keeps_no_workspace (win : WnckWindow)
    (hws : win.workspace = none) (cw1 cw2 : Option WnckWorkspace) :
    ww_filter_strut_windows_keeps cw1 win = ww_filter_strut_windows_keeps cw2 win := by
  unfold ww_filter_strut_windows_keeps wnck_window_get_workspace
  simp [hws]

/-- C12: a window without a workspace is kept by `ww_filter_user_windows` under
one value of `current_workspace` if and only if it is kept under any other,
and likewise by `ww_filter_strut_windows`; if it is not skip-tasklist,
minimized, maximized or shaded it is always a user window, and if it is a
dock it is always a strut. -/
theorem ww_filter_no_workspace_eligible (windows : List WnckWindow) (win : WnckWindow)
    (hws : win.workspace = none) (cw1 cw2 : Option WnckWorkspace) :
    (win ∈ ww_filter_user_windows windows cw1 ↔ win ∈ ww_filter_user_windows windows cw2) ∧
    (win ∈ ww_filter_strut_windows windows cw1 ↔
      win ∈ ww_filter_strut_windows windows cw2) ∧
    (win ∈ windows → win.skip_tasklist = false → win.minimized = false →
      win.maximized = false → win.shaded = false →
      win ∈ ww_filter_user_windows windows cw1) ∧
    (win ∈ windows → win.window_type = WnckWindowType.WNCK_WINDOW_DOCK →
      win ∈ ww_filter_strut_windows windows cw1) := by
  simp only [ww_filter_user_windows_eq_filter, ww_filter_strut_windows_eq_filter,
    List.mem_filter]
  refine ⟨?_, ?_, ?_, ?_⟩
  · rw [ww_filter_user_windows_keeps_no_workspace win hws cw1 cw2]
  · rw [ww_filter_strut_windows_keeps_no_workspace win hws cw1 cw2]
  · intro hmem h1 h2 h3 h4
    refine ⟨hmem, ?_⟩
    rw [ww_filter_user_windows_keeps_iff]
    exact ⟨h1, h2, h3, h4, Or.inr (Or.inr hws)⟩
  · intro hmem hdock
    refine ⟨hmem, ?_⟩
    rw [ww_filter_strut_windows_keeps_iff]
    exact ⟨hdock, Or.inr (Or.inr hws)⟩

/-- C12, applied: a pinned panel, with `current_workspace` absent and with
`current_workspace` the workspace `3`. -/
theorem ww_filter_no_workspace_eligible_witness :
    (panel_window 2 ⟨0, 0, 1920, 30⟩).workspace = none ∧
    (panel_window 2 ⟨0, 0, 1920, 30⟩ ∈
        ww_filter_strut_windows
          [normal_window 1 ⟨100, 100, 200, 200⟩ true, panel_window 2 ⟨0, 0, 1920, 30⟩] none ↔
      panel_window 2 ⟨0, 0, 1920, 30⟩ ∈
        ww_filter_strut_windows
          [normal_window 1 ⟨100, 100, 200, 200⟩ true, panel_window 2 ⟨0, 0, 1920, 30⟩]
          (some 3)) :=
  ⟨rfl,
   (ww_filter_no_workspace_eligible
    [normal_window 1 ⟨100, 100, 200, 200⟩ true, panel_window 2 ⟨0, 0, 1920, 30⟩]
    (panel_window 2 ⟨0, 0, 1920, 30⟩) rfl none (some 3)).2.1⟩

theorem ww_layout_expand_foldl_all_active (x y w h : Int) (windows : List WnckWindow)
    (b : ExpandBounds) (hall : ∀ win ∈ windows, win.active = true) :
    windows.foldl (ww_layout_expand_body x y w h) b = b := by
  induction windows generalizing b with
  | nil => rfl
  | cons win rest ih =>
    have hwin : ww_layout_expand_body x y w h b win = b := by
      unfold ww_layout_expand_body wnck_window_is_active
      rw [if_pos (hall win (List.mem_cons_self win rest))]
    rw [List.foldl_cons, hwin]
    exact ih b (fun v hv => hall v (List.mem_cons_of_mem win hv))

/-- C14: for every screen and every geometry of the active window, when every
window of the user-window list is the active one (the list is empty or holds
only the active window), `ww_layout_expand` sets the active window to
`{0, 0, screen width, screen height}`. -/
theorem ww_layout_expand_alone (screen : WnckScreen) (windows struts : List WnckWindow)
    (active : WnckWindow) (hall : ∀ win ∈ windows, wnck_window_is_active win = true) :
    ww_layout_expand screen windows struts active =
      ⟨0, 0, screen.width, screen.height⟩ := by
  unfold ww_layout_expand ww_layout_expand_bounds
  rw [ww_layout_expand_foldl_all_active _ _ _ _ windows _ hall]
  simp [wnck_screen_get_width, wnck_screen_get_height]

/-- C14, applied: a 1920x1080 screen whose only user window is the active
window `{100,100,200,200}`. -/
theorem ww_layout_expand_alone_witness :
    (∀ win ∈ [normal_window 1 ⟨100, 100, 200, 200⟩ true],
      wnck_window_is_active win = true) ∧
    ww_layout_expand ⟨1920, 1080⟩ [normal_window 1 ⟨100, 100, 200, 200⟩ true] []
      (normal_window 1 ⟨100, 100, 200, 200⟩ true) = ⟨0, 0, 1920, 1080⟩ :=
  ⟨by decide,
   ww_layout_expand_alone ⟨1920, 1080⟩ [normal_window 1 ⟨100, 100, 200, 200⟩ true] []
    (normal_window 1 ⟨100, 100, 200, 200⟩ true) (by decide)⟩

/-- C13 (claim as stated fails): called on a 1920x1080 screen with one user
window, no active window and `*error` unset, `ww_layout_expand` sets no
geometry and leaves `*error` unset: no error is reported. -/
theorem ww_layout_expand_handler_absent_active :
    ww_layout_expand_handler ⟨1920, 1080⟩ [normal_window 2 ⟨400, 100, 200, 200⟩ false] []
      none ⟨0, 0, 0, 0⟩ none = { geometry_set := none, error := none } ∧
    (ww_layout_expand_handler ⟨1920, 1080⟩ [normal_window 2 ⟨400, 100, 200, 200⟩ false] []
      none ⟨0, 0, 0, 0⟩ none).error.isSome = false := by
  constructor <;> rfl

/-- C13 (amended): `ww_layout_expand` never reports an error. For every screen
and window list, when no active window is supplied the handler leaves its
error result as the caller passed it and performs no geometry mutation; when an
active window is supplied it also leaves the error result untouched and sets
the expand rectangle on that window. -/
theorem ww_layout_expand_handler_never_reports (screen : WnckScreen)
    (windows struts : List WnckWindow) (uninit : Geometry) (error : Option GError) :
    ww_layout_expand_handler screen windows struts none uninit error =
      { geometry_set := none, error := error } ∧
    (∀ active : WnckWindow,
      ww_layout_expand_handler screen windows struts (some active) uninit error =
        { geometry_set := some (ww_layout_expand screen windows struts active),
          error := error }) :=
  ⟨rfl, fun _ => rfl⟩

/-- C15: with `current_workspace` the workspace `0`, `ww_filter_strut_windows`
keeps a dock on workspace `0` that is neither pinned nor skip-tasklist, and a
second such dock that is minimized as well, although its doc comment promises
only windows that are not minimized, maximized or shaded and that are
skip-tasklist and pinned: the loop tests the window type and workspace only. -/
theorem ww_filter_strut_windows_keeps_unpinned_dock :
    ww_filter_strut_windows
        [workspace_dock 3 ⟨0, 0, 1920, 30⟩ false, workspace_dock 4 ⟨0, 1050, 1920, 30⟩ true]
        (some 0) =
      [workspace_dock 3 ⟨0, 0, 1920, 30⟩ false, workspace_dock 4 ⟨0, 1050, 1920, 30⟩ true] ∧
    wnck_window_is_skip_tasklist (workspace_dock 3 ⟨0, 0, 1920, 30⟩ false) = false ∧
    wnck_window_is_pinned (workspace_dock 3 ⟨0, 0, 1920, 30⟩ false) = false ∧
    wnck_window_is_minimized (workspace_dock 4 ⟨0, 1050, 1920, 30⟩ true) = true := by
  decide

theorem ww_layout_expand_body_bound (x y w h : Int) (b : ExpandBounds) (win : WnckWindow)
    (hna : wnck_window_is_active win = false) :
    (x > win.geometry.x + win.geometry.width →
      win.geometry.x + win.geometry.width ≤ (ww_layout_expand_body x y w h b win).bx) ∧
    (x + w < win.geometry.x → (ww_layout_expand_body x y w h b win).br ≤ win.geometry.x) ∧
    (y > win.geometry.y + win.geometry.height →
      win.geometry.y + win.geometry.height ≤ (ww_layout_expand_body x y w h b win).by_) ∧
    (y + h < win.geometry.y → (ww_layout_expand_body x y w h b win).bb ≤ win.geometry.y) := by
  unfold ww_layout_expand_body
  rw [hna]
  simp only [Bool.false_eq_true, if_false, MAX_eq_max, MIN_eq_min, wnck_window_get_geometry]
  refine ⟨?_, ?_, ?_, ?_⟩ <;> intro hc <;> rw [if_pos hc] <;> omega

/-- A window of the list that is not active and passes one of the four tests
bounds the matching loop variable when the loop of `ww_layout_expand` ends. -/
theorem ww_layout_expand_foldl_bound (x y w h : Int) (windows : List WnckWindow)
    (b : ExpandBounds) (win : WnckWindow) (hmem : win ∈ windows)
    (hna : wnck_window_is_active win = false) :
    (x > win.geometry.x + win.geometry.width →
      win.geometry.x + win.geometry.width ≤
        (windows.foldl (ww_layout_expand_body x y w h) b).bx) ∧
    (x + w < win.geometry.x →
      (windows.foldl (ww_layout_expand_body x y w h) b).br ≤ win.geometry.x) ∧
    (y > win.geometry.y + win.geometry.height →
      win.geometry.y + win.geometry.height ≤
        (windows.foldl (ww_layout_expand_body x y w h) b).by_) ∧
    (y + h < win.geometry.y →
      (windows.foldl (ww_layout_expand_body x y w h) b).bb ≤ win.geometry.y) := by
  induction windows generalizing b with
  | nil => cases hmem
  | cons v rest ih =>
    rw [List.foldl_cons]
    rcases List.mem_cons.mp hmem with heq | hrest
    · subst heq
      have h1 := ww_layout_expand_body_bound x y w h b win hna
      have h2 := ww_layout_expand_foldl_inv x y w h rest (ww_layout_expand_body x y w h b win)
      refine ⟨?_, ?_, ?_, ?_⟩ <;> intro hc
      · have := h1.1 hc
        omega
      · have := h1.2.1 hc
        omega
      · have := h1.2.2.1 hc
        omega
      · have := h1.2.2.2 hc
        omega
    · exact ih _ hrest

/-- C16: for every screen, active window at `(x, y)` of size `w` by `h`,
user-window list and non-active window `(wx, wy, ww, wh)` of the list, the
rectangle `{bx, by, br-bx, bb-by}` set by `ww_layout_expand` has
`bx >= wx+ww` if `x > wx+ww`, `br <= wx` if `x+w < wx`, `by >= wy+wh` if
`y > wy+wh`, and `bb <= wy` if `y+h < wy`. -/
theorem ww_layout_expand_separated (screen : WnckScreen) (windows struts : List WnckWindow)
    (active win : WnckWindow) (hmem : win ∈ windows)
    (hna : wnck_window_is_active win = false) :
    (active.geometry.x > win.geometry.x + win.geometry.width →
      (ww_layout_expand screen windows struts active).x ≥
        win.geometry.x + win.geometry.width) ∧
    (active.geometry.x + active.geometry.width < win.geometry.x →
      (ww_layout_expand screen windows struts active).x +
        (ww_layout_expand screen windows struts active).width ≤ win.geometry.x) ∧
    (active.geometry.y > win.geometry.y + win.geometry.height →
      (ww_layout_expand screen windows struts active).y ≥
        win.geometry.y + win.geometry.height) ∧
    (active.geometry.y + active.geometry.height < win.geometry.y →
      (ww_layout_expand screen windows struts active).y +
        (ww_layout_expand screen windows struts active).height ≤ win.geometry.y) := by
  have hb := ww_layout_expand_foldl_bound active.geometry.x active.geometry.y
    active.geometry.width active.geometry.height windows
    { bx := 0, by_ := 0, br := screen.width, bb := screen.height } win hmem hna
  unfold ww_layout_expand ww_layout_expand_bounds wnck_window_get_geometry
    wnck_screen_get_width wnck_screen_get_height
  simp only at hb ⊢
  refine ⟨?_, ?_, ?_, ?_⟩ <;> intro hc
  · have := hb.1 hc
    omega
  · have := hb.2.1 hc
    omega
  · have := hb.2.2.1 hc
    omega
  · have := hb.2.2.2 hc
    omega

/-- C16, applied: screen 1920x1080, active `{500,500,200,200}`, and a window
`{100,100,200,200}` strictly to its left and strictly above it. -/
theorem ww_layout_expand_separated_witness :
    normal_window 2 ⟨100, 100, 200, 200⟩ false ∈
      [normal_window 1 ⟨500, 500, 200, 200⟩ true, normal_window 2 ⟨100, 100, 200, 200⟩ false] ∧
    wnck_window_is_active (normal_window 2 ⟨100, 100, 200, 200⟩ false) = false ∧
    (ww_layout_expand ⟨1920, 1080⟩
      [normal_window 1 ⟨500, 500, 200, 200⟩ true, normal_window 2 ⟨100, 100, 200, 200⟩ false]
      [] (normal_window 1 ⟨500, 500, 200, 200⟩ true)).x ≥ 300 ∧
    (ww_layout_expand ⟨1920, 1080⟩
      [normal_window 1 ⟨500, 500, 200, 200⟩ true, normal_window 2 ⟨100, 100, 200, 200⟩ false]
      [] (normal_window 1 ⟨500, 500, 200, 200⟩ true)).y ≥ 300 :=
  ⟨by decide, rfl,
   (ww_layout_expand_separated ⟨1920, 1080⟩
    [normal_window 1 ⟨500, 500, 200, 200⟩ true, normal_window 2 ⟨100, 100, 200, 200⟩ false]
    [] (normal_window 1 ⟨500, 500, 200, 200⟩ true)
    (normal_window 2 ⟨100, 100, 200, 200⟩ false) (by decide) rfl).1 (by decide),
   (ww_layout_expand_separated ⟨1920, 1080⟩
    [normal_window 1 ⟨500, 500, 200, 200⟩ true, normal_window 2 ⟨100, 100, 200, 200⟩ false]
    [] (normal_window 1 ⟨500, 500, 200, 200⟩ true)
    (normal_window 2 ⟨100, 100, 200, 200⟩ false) (by decide) rfl).2.2.1 (by decide)⟩

/-- C17: for every screen and user-window list and every active window of
width and height at least 0 that lies on the screen (`0 <= x`,
`x+w <= screen width`, `0 <= y`, `y+h <= screen height`), the rectangle
`{bx, by, br-bx, bb-by}` set by `ww_layout_expand` contains the active
window's current rectangle: `bx <= x`, `by <= y`, `br >= x+w`, `bb >= y+h`. -/
theorem ww_layout_expand_contains_active (screen : WnckScreen)
    (windows struts : List WnckWindow) (active : WnckWindow)
    (_hsize : 0 ≤ active.geometry.width ∧ 0 ≤ active.geometry.height)
    (hx : 0 ≤ active.geometry.x ∧ active.geometry.x + active.geometry.width ≤ screen.width)
    (hy : 0 ≤ active.geometry.y ∧
      active.geometry.y + active.geometry.height ≤ screen.height) :
    (ww_layout_expand screen windows struts active).x ≤ active.geometry.x ∧
    (ww_layout_expand screen windows struts active).y ≤ active.geometry.y ∧
    (ww_layout_expand screen windows struts active).x +
      (ww_layout_expand screen windows struts active).width ≥
        active.geometry.x + active.geometry.width ∧
    (ww_layout_expand screen windows struts active).y +
      (ww_layout_expand screen windows struts active).height ≥
        active.geometry.y + active.geometry.height := by
  have inv := ww_layout_expand_foldl_inv active.geometry.x active.geometry.y
    active.geometry.width active.geometry.height windows
    { bx := 0, by_ := 0, br := screen.width, bb := screen.height }
  unfold ww_layout_expand ww_layout_expand_bounds wnck_window_get_geometry
    wnck_screen_get_width wnck_screen_get_height
  simp only at inv ⊢
  omega

/-- C17, applied: screen 1920x1080, active `{500,500,200,200}` between a
window to its upper left and a window to its right. -/
theorem ww_layout_expand_contains_active_witness :
    (0 ≤ (normal_window 1 ⟨500, 500, 200, 200⟩ true).geometry.x ∧
      (normal_window 1 ⟨500, 500, 200, 200⟩ true).geometry.x +
        (normal_window 1 ⟨500, 500, 200, 200⟩ true).geometry.width ≤
          (WnckScreen.mk 1920 1080).width) ∧
    (ww_layout_expand ⟨1920, 1080⟩
      [normal_window 1 ⟨500, 500, 200, 200⟩ true, normal_window 2 ⟨100, 100, 200, 200⟩ false,
       normal_window 3 ⟨900, 500, 200, 200⟩ false]
      [] (normal_window 1 ⟨500, 500, 200, 200⟩ true)).x ≤ 500 :=
  ⟨by decide,
   (ww_layout_expand_contains_active ⟨1920, 1080⟩
    [normal_window 1 ⟨500, 500, 200, 200⟩ true, normal_window 2 ⟨100, 100, 200, 200⟩ false,
     normal_window 3 ⟨900, 500, 200, 200⟩ false]
    [] (normal_window 1 ⟨500, 500, 200, 200⟩ true) (by decide) (by decide) (by decide)).1⟩

/-- C18: on a 1920x1080 screen, with the active window `{100,100,200,200}` and
one other user window `{0,100,50,200}` to its left, `ww_layout_expand` sets
`{50,0,1870,1080}`; run again with the active window at that rectangle it sets
`{0,0,1920,1080}`, a different rectangle that covers the other window: the
strict test `x > wx+ww` no longer sees the window whose edge the first run
stopped at. -/
theorem ww_layout_expand_second_run_differs :
    ww_layout_expand ⟨1920, 1080⟩ [normal_window 2 ⟨0, 100, 50, 200⟩ false] []
      (normal_window 1 ⟨100, 100, 200, 200⟩ true) = ⟨50, 0, 1870, 1080⟩ ∧
    ww_layout_expand ⟨1920, 1080⟩ [normal_window 2 ⟨0, 100, 50, 200⟩ false] []
      (normal_window 1 ⟨50, 0, 1870, 1080⟩ true) = ⟨0, 0, 1920, 1080⟩ ∧
    ww_layout_expand ⟨1920, 1080⟩ [normal_window 2 ⟨0, 100, 50, 200⟩ false] []
      (normal_window 1
        (ww_layout_expand ⟨1920, 1080⟩ [normal_window 2 ⟨0, 100, 50, 200⟩ false] []
          (normal_window 1 ⟨100, 100, 200, 200⟩ true)) true) ≠
      ww_layout_expand ⟨1920, 1080⟩ [normal_window 2 ⟨0, 100, 50, 200⟩ false] []
        (normal_window 1 ⟨100, 100, 200, 200⟩ true) := by
  decide

theorem foldr_max_perm (l1 l2 : List Int) (hperm : l1.Perm l2) (i : Int) :
    l1.foldr max i = l2.foldr max i :=
  List.Perm.foldr_eq' hperm (fun a _ c _ z => by omega) i

theorem foldr_min_perm (l1 l2 : List Int) (hperm : l1.Perm l2) (i : Int) :
    l1.foldr min i = l2.foldr min i :=
  List.Perm.foldr_eq' hperm (fun a _ c _ z => by omega) i

theorem ww_layout_expand_foldl_perm (x y w h : Int) (windows1 windows2 : List WnckWindow)
    (hperm : windows1.Perm windows2) (b : ExpandBounds) :
    windows1.foldl (ww_layout_expand_body x y w h) b =
      windows2.foldl (ww_layout_expand_body x y w h) b := by
  rw [expand_foldl_eq, expand_foldl_eq]
  congr 1
  · exact foldr_max_perm _ _ (((hperm.filter _).filter _).map _) _
  · exact foldr_max_perm _ _ (((hperm.filter _).filter _).map _) _
  · exact foldr_min_perm _ _ (((hperm.filter _).filter _).map _) _
  · exact foldr_min_perm _ _ (((hperm.filter _).filter _).map _) _

/-- C19: for every screen and active window, and every two user-window lists
that are permutations of each other, `ww_layout_expand` sets the same
rectangle. -/
theorem ww_layout_expand_reorder (screen : WnckScreen) (windows1 windows2 : List WnckWindow)
    (struts : List WnckWindow) (active : WnckWindow) (hperm : windows1.Perm windows2) :
    ww_layout_expand screen windows1 struts active =
      ww_layout_expand screen windows2 struts active := by
  unfold ww_layout_expand ww_layout_expand_bounds
  rw [ww_layout_expand_foldl_perm _ _ _ _ windows1 windows2 hperm]

/-- C19, applied: screen 1920x1080, the active window `{500,500,200,200}` and
a window to its upper left, listed in either order. -/
theorem ww_layout_expand_reorder_witness :
    [normal_window 1 ⟨500, 500, 200, 200⟩ true, normal_window 2 ⟨100, 100, 200, 200⟩ false].Perm
      [normal_window 2 ⟨100, 100, 200, 200⟩ false, normal_window 1 ⟨500, 500, 200, 200⟩ true] ∧
    ww_layout_expand ⟨1920, 1080⟩
        [normal_window 1 ⟨500, 500, 200, 200⟩ true, normal_window 2 ⟨100, 100, 200, 200⟩ false]
        [] (normal_window 1 ⟨500, 500, 200, 200⟩ true) =
      ww_layout_expand ⟨1920, 1080⟩
        [normal_window 2 ⟨100, 100, 200, 200⟩ false, normal_window 1 ⟨500, 500, 200, 200⟩ true]
        [] (normal_window 1 ⟨500, 500, 200, 200⟩ true) :=
  ⟨List.Perm.swap _ _ _,
   ww_layout_expand_reorder ⟨1920, 1080⟩ _ _ [] _ (List.Perm.swap _ _ _)⟩

end WinWrangler
